import Mathlib

/-!
# eksphemeral: the `eksp` command line front-end (`main.go`)

A shallow embedding of `main.go`: the cluster record and its detail view, the
two JSON entry points (`parseCS`, and the identifier list decoded in
`listClusters`), the two process runners and the verb dispatcher `main`.

Go `string` values are modelled by `String`, Go `int` by `Int` (the decoder
only ever stores values that fit 64 bits), a Go map by an optional association
list (`none` is the nil map).  Effects are made explicit: every function that
prints or launches a subprocess returns the list of `Event`s it performs, in
order, and `main` additionally returns how the process ends.
-/

namespace Eksp

/-! ## `fmt.Sprintf`, for the verbs the program uses -/

/-- An operand handed to a formatting call. -/
inductive FmtArg where
  | str (s : String)
  | int (n : Int)
  deriving Repr, DecidableEq

/-- Rendering of one operand under the verb `c`: `%s` and `%v` print a string
as it is, `%d` and `%v` print an integer in decimal; any other pairing yields
the bad-verb form of package `fmt`. -/
def FmtArg.render (c : Char) : FmtArg → List Char
  | .str s =>
    if c = 's' ∨ c = 'v' then s.data
    else '%' :: '!' :: c :: ("(string=" ++ s ++ ")").data
  | .int n =>
    if c = 'd' ∨ c = 'v' then (toString n).data
    else '%' :: '!' :: c :: ("(int=" ++ toString n ++ ")").data

/-- Operands left over once the format is exhausted, as `fmt` reports them. -/
def extraArgs : List FmtArg → List Char
  | [] => []
  | .str s :: rest =>
    ("string=" ++ s).data ++ (if rest.isEmpty then [] else ", ".data ++ extraArgs rest)
  | .int n :: rest =>
    ("int=" ++ toString n).data ++ (if rest.isEmpty then [] else ", ".data ++ extraArgs rest)

/-- The formatting loop of `fmt.Sprintf` over the characters of the format. -/
def sprintfAux : List Char → List FmtArg → List Char
  | [], [] => []
  | [], a :: as => "%!(EXTRA ".data ++ extraArgs (a :: as) ++ [')']
  | '%' :: [], _ => "%!(NOVERB)".data
  | '%' :: '%' :: fs, as => '%' :: sprintfAux fs as
  | '%' :: c :: fs, [] => '%' :: '!' :: c :: "(MISSING)".data ++ sprintfAux fs []
  | '%' :: c :: fs, a :: as => a.render c ++ sprintfAux fs as
  | c :: fs, as => c :: sprintfAux fs as

/-- Model of `fmt.Sprintf(format, args...)`. -/
def Sprintf (format : String) (args : List FmtArg) : String :=
  ⟨sprintfAux format.data args⟩

/-! ## The cluster record -/

/-- Go `map[string]string`; `none` is the nil map. The head of the list is the
most recent write. -/
abbrev GoMap := Option (List (String × String))

/-- Reading `m[k]`: the zero value `""` when the key is absent or the map nil. -/
def GoMap.index (m : GoMap) (k : String) : String :=
  match m with
  | none => ""
  | some kvs => (kvs.lookup k).getD ""

/-- The type `ClusterSpec` of `main.go`. -/
structure ClusterSpec where
  ID : String := ""
  Name : String := ""
  NumWorkers : Int := 0
  KubeVersion : String := ""
  Timeout : Int := 0
  TTL : Int := 0
  Owner : String := ""
  CreationTime : String := ""
  ClusterDetails : GoMap := none
  deriving Repr, DecidableEq

/-- The method `func (cs ClusterSpec) String() string`. -/
def ClusterSpec.String (cs : ClusterSpec) : String :=
  if cs.Name = "" then
    Sprintf "Cluster does not exist or control plane is down" []
  else
    let details := Sprintf "Status:\t\t\t%s\n\tEndpoint:\t\t%s\n\tPlatform version:\t%s\n\tVPC config:\t\t%s\n\tIAM role:\t\t%s\n"
      [.str (cs.ClusterDetails.index "status"), .str (cs.ClusterDetails.index "endpoint"),
       .str (cs.ClusterDetails.index "platformv"), .str (cs.ClusterDetails.index "vpcconf"),
       .str (cs.ClusterDetails.index "iamrole")]
    Sprintf "ID:\t\t%s\nName:\t\t%s\nKubernetes:\tv%s\nWorker nodes:\t%d\nTimeout:\t%d min\nTTL:\t\t%d min\nOwner:\t\t%s\nDetails:\n\t%s"
      [.str cs.ID, .str cs.Name, .str cs.KubeVersion, .int cs.NumWorkers, .int cs.Timeout,
       .int cs.TTL, .str cs.Owner, .str details]

/-! ## `encoding/json`: validation, then decoding into the two target types

`json.Unmarshal` first checks that the whole input is one well-formed JSON
value (a malformed input leaves the target untouched), then stores the value
into the target.  A value that does not fit its target is skipped, the earliest
such mismatch is remembered and returned once the whole input is stored. -/

/-- A well-formed JSON value. Numbers keep their literal, strings are unquoted. -/
inductive JValue where
  | null
  | bool (b : Bool)
  | num (lit : String)
  | str (s : String)
  | arr (elems : List JValue)
  | obj (members : List (String × JValue))
  deriving Repr

/-- The error values `json.Unmarshal` returns: a malformed input, or the
earliest value that did not fit its target (with the JSON kind that was met). -/
inductive JsonError where
  | malformed
  | typeMismatch (value : String)
  deriving Repr, DecidableEq

/-- JSON white space. -/
def isSpace (c : Char) : Bool :=
  c = ' ' || c = '\t' || c = '\r' || c = '\n'

/-- Drop leading white space. -/
def skipSpace : List Char → List Char
  | [] => []
  | c :: cs => if isSpace c then skipSpace cs else c :: cs

/-- Value of a hexadecimal digit. -/
def hexVal (c : Char) : Option Nat :=
  if '0' ≤ c ∧ c ≤ '9' then some (c.toNat - '0'.toNat)
  else if 'a' ≤ c ∧ c ≤ 'f' then some (c.toNat - 'a'.toNat + 10)
  else if 'A' ≤ c ∧ c ≤ 'F' then some (c.toNat - 'A'.toNat + 10)
  else none

/-- The four hexadecimal digits of a `\u` escape. -/
def getu4 (a b c d : Char) : Option Nat :=
  match hexVal a, hexVal b, hexVal c, hexVal d with
  | some x, some y, some z, some w => some (((x * 16 + y) * 16 + z) * 16 + w)
  | _, _, _, _ => none

/-- The replacement character U+FFFD. -/
def replacementChar : Char := Char.ofNat 0xFFFD

/-- A high surrogate left without its low half becomes U+FFFD. -/
def flushPending : Option Nat → List Char
  | none => []
  | some _ => [replacementChar]

/-- The single-character escapes. -/
def simpleEscape (e : Char) : Option Char :=
  if e = '"' then some '"'
  else if e = '\\' then some '\\'
  else if e = '/' then some '/'
  else if e = 'b' then some (Char.ofNat 8)
  else if e = 'f' then some (Char.ofNat 12)
  else if e = 'n' then some '\n'
  else if e = 'r' then some '\r'
  else if e = 't' then some '\t'
  else none

/-- Scan and unquote a string literal whose opening quote has been read.
`pend` is a high surrogate read from a `\u` escape and still waiting for its
low half. Returns the unquoted text and the input after the closing quote. -/
def scanString (pend : Option Nat) : List Char → Option (List Char × List Char)
  | [] => none
  | c :: cs =>
    if c = '"' then some (flushPending pend, cs)
    else if c = '\\' then
      match cs with
      | [] => none
      | e :: cs1 =>
        if e = 'u' then
          match cs1 with
          | h1 :: h2 :: h3 :: h4 :: rest =>
            match getu4 h1 h2 h3 h4 with
            | none => none
            | some v =>
              if 0xDC00 ≤ v ∧ v < 0xE000 then
                match pend with
                | some hi =>
                  (scanString none rest).map fun r =>
                    (Char.ofNat ((hi - 0xD800) * 0x400 + (v - 0xDC00) + 0x10000) :: r.1, r.2)
                | none => (scanString none rest).map fun r => (replacementChar :: r.1, r.2)
              else if 0xD800 ≤ v ∧ v < 0xDC00 then
                (scanString (some v) rest).map fun r => (flushPending pend ++ r.1, r.2)
              else
                (scanString none rest).map fun r =>
                  (flushPending pend ++ Char.ofNat v :: r.1, r.2)
          | _ => none
        else
          match simpleEscape e with
          | none => none
          | some x => (scanString none cs1).map fun r => (flushPending pend ++ x :: r.1, r.2)
    else if c.toNat < 0x20 then none
    else (scanString none cs).map fun r => (flushPending pend ++ c :: r.1, r.2)

/-- A non-empty run of decimal digits. -/
def scanDigits (input : List Char) : Option (List Char × List Char) :=
  match input.span Char.isDigit with
  | ([], _) => none
  | (ds, rest) => some (ds, rest)

/-- The optional exponent of a number literal. -/
def scanExponent (input : List Char) : Option (List Char × List Char) :=
  match input with
  | e :: cs =>
    if e = 'e' ∨ e = 'E' then
      match cs with
      | s :: cs1 =>
        if s = '+' ∨ s = '-' then (scanDigits cs1).map fun r => (e :: s :: r.1, r.2)
        else (scanDigits cs).map fun r => (e :: r.1, r.2)
      | [] => none
    else some ([], input)
  | [] => some ([], input)

/-- The optional fraction of a number literal, then its exponent. -/
def scanFraction (input : List Char) : Option (List Char × List Char) :=
  match input with
  | '.' :: cs =>
    match scanDigits cs with
    | none => none
    | some (ds, rest) => (scanExponent rest).map fun r => ('.' :: ds ++ r.1, r.2)
  | _ => scanExponent input

/-- The integer part of a number literal (no sign), then the rest of it. -/
def scanUnsigned (input : List Char) : Option (List Char × List Char) :=
  match input with
  | '0' :: cs => (scanFraction cs).map fun r => ('0' :: r.1, r.2)
  | _ =>
    match scanDigits input with
    | none => none
    | some (ds, rest) => (scanFraction rest).map fun r => (ds ++ r.1, r.2)

/-- A number literal: returns the literal and the input after it. -/
def scanNumber (input : List Char) : Option (List Char × List Char) :=
  match input with
  | '-' :: cs => (scanUnsigned cs).map fun r => ('-' :: r.1, r.2)
  | _ => scanUnsigned input

/-- The elements of an array after the first one has been announced: a value,
then either a comma and more elements, or the closing bracket. -/
def parseElems (pv : List Char → Option (JValue × List Char)) :
    Nat → List Char → Option (List JValue × List Char)
  | 0, _ => none
  | n + 1, input =>
    match pv input with
    | none => none
    | some (v, rest) =>
      match skipSpace rest with
      | ',' :: rest1 => (parseElems pv n rest1).map fun r => (v :: r.1, r.2)
      | ']' :: rest1 => some ([v], rest1)
      | _ => none

/-- The members of an object: a key, a colon, a value, then either a comma and
more members, or the closing brace. -/
def parseMembers (pv : List Char → Option (JValue × List Char)) :
    Nat → List Char → Option (List (String × JValue) × List Char)
  | 0, _ => none
  | n + 1, input =>
    match skipSpace input with
    | '"' :: cs =>
      match scanString none cs with
      | none => none
      | some (k, rest) =>
        match skipSpace rest with
        | ':' :: rest1 =>
          match pv rest1 with
          | none => none
          | some (v, rest2) =>
            match skipSpace rest2 with
            | ',' :: rest3 => (parseMembers pv n rest3).map fun r => ((⟨k⟩, v) :: r.1, r.2)
            | '}' :: rest3 => some ([(⟨k⟩, v)], rest3)
            | _ => none
        | _ => none
    | _ => none

/-- One JSON value, possibly preceded by white space. The first argument is
one more than the number of array or object levels that may still be opened. -/
def parseValue : Nat → List Char → Option (JValue × List Char)
  | 0, _ => none
  | depth + 1, input =>
    match skipSpace input with
    | [] => none
    | c :: cs =>
      if c = '"' then (scanString none cs).map fun r => (JValue.str ⟨r.1⟩, r.2)
      else if c = '[' then
        if depth = 0 then none else
        match skipSpace cs with
        | ']' :: rest => some (JValue.arr [], rest)
        | _ => (parseElems (parseValue depth) cs.length cs).map fun r => (JValue.arr r.1, r.2)
      else if c = '{' then
        if depth = 0 then none else
        match skipSpace cs with
        | '}' :: rest => some (JValue.obj [], rest)
        | _ => (parseMembers (parseValue depth) cs.length cs).map fun r => (JValue.obj r.1, r.2)
      else if c = 't' then
        match cs with
        | 'r' :: 'u' :: 'e' :: rest => some (JValue.bool true, rest)
        | _ => none
      else if c = 'f' then
        match cs with
        | 'a' :: 'l' :: 's' :: 'e' :: rest => some (JValue.bool false, rest)
        | _ => none
      else if c = 'n' then
        match cs with
        | 'u' :: 'l' :: 'l' :: rest => some (JValue.null, rest)
        | _ => none
      else (scanNumber (c :: cs)).map fun r => (JValue.num ⟨r.1⟩, r.2)

/-- The deepest nesting of arrays and objects the library accepts. -/
def maxNestingDepth : Nat := 10000

/-- The validity check of `json.Unmarshal`: the input is exactly one JSON
value, white space allowed around it. `none` is a malformed input. -/
def parseJSON (data : String) : Option JValue :=
  match parseValue (maxNestingDepth + 1) data.data with
  | none => none
  | some (v, rest) => if (skipSpace rest).isEmpty then some v else none

/-- Go name of the kind of a JSON value, as carried by a type mismatch. -/
def JValue.kind : JValue → String
  | .null => "null"
  | .bool _ => "bool"
  | .num _ => "number"
  | .str _ => "string"
  | .arr _ => "array"
  | .obj _ => "object"

/-- Storing a JSON value into a Go `string`: a string is stored, `null` leaves
the target as it is, anything else is a mismatch that leaves it as it is. -/
def decodeString (dst : String) : JValue → String × Option String
  | .str s => (s, none)
  | .null => (dst, none)
  | v => (dst, some v.kind)

/-- Model of `strconv.ParseInt(s, 10, 64)` on a JSON number literal: an optional
minus sign and decimal digits only, within the range of a 64-bit integer. -/
def parseInt (lit : String) : Option Int :=
  let digits := match lit.data with
    | '-' :: ds => ds
    | ds => ds
  if digits.isEmpty ∨ ¬ digits.all Char.isDigit then none
  else
    let n : Nat := digits.foldl (fun acc d => acc * 10 + (d.toNat - '0'.toNat)) 0
    match lit.data with
    | '-' :: _ => if n ≤ 2 ^ 63 then some (-(n : Int)) else none
    | _ => if n < 2 ^ 63 then some (n : Int) else none

/-- Storing a JSON value into a Go `int`. -/
def decodeInt (dst : Int) : JValue → Int × Option String
  | .num lit =>
    match parseInt lit with
    | some n => (n, none)
    | none => (dst, some ("number " ++ lit))
  | .null => (dst, none)
  | v => (dst, some v.kind)

/-- Storing the members of a JSON object into a non-nil `map[string]string`:
every key is written, with the zero value when its value does not fit. -/
def decodeMapMembers : List (String × String) → List (String × JValue) →
    List (String × String) × Option String
  | m, [] => (m, none)
  | m, (k, v) :: rest =>
    let r := decodeString "" v
    let r2 := decodeMapMembers ((k, r.1) :: m) rest
    (r2.1, r.2.orElse fun _ => r2.2)

/-- Storing a JSON value into a Go `map[string]string`: an object is merged
into the map (allocated when nil), `null` makes the map nil. -/
def decodeMap (dst : GoMap) : JValue → GoMap × Option String
  | .obj members =>
    let r := decodeMapMembers (dst.getD []) members
    (some r.1, r.2)
  | .null => (none, none)
  | v => (dst, some v.kind)

/-- Whether the character `c` of a key matches the lower-case ASCII letter `f`
of a field name under simple case folding. -/
def foldsTo (c f : Char) : Bool :=
  c = f || c.toLower = f
    || (c = Char.ofNat 0x017F && f = 's') || (c = Char.ofNat 0x212A && f = 'k')

/-- Whether a JSON key selects the field with tag `name` (all tags of
`ClusterSpec` are lower-case ASCII): equality up to case folding. -/
def keyMatches : List Char → List Char → Bool
  | [], [] => true
  | c :: cs, f :: fs => foldsTo c f && keyMatches cs fs
  | _, _ => false

/-- Storing one member of a JSON object into the field of `ClusterSpec` its
key selects; a key that selects no field is ignored. -/
def storeMember (cs : ClusterSpec) (key : String) (v : JValue) :
    ClusterSpec × Option String :=
  if keyMatches key.data "id".data then
    let r := decodeString cs.ID v; ({ cs with ID := r.1 }, r.2)
  else if keyMatches key.data "name".data then
    let r := decodeString cs.Name v; ({ cs with Name := r.1 }, r.2)
  else if keyMatches key.data "numworkers".data then
    let r := decodeInt cs.NumWorkers v; ({ cs with NumWorkers := r.1 }, r.2)
  else if keyMatches key.data "kubeversion".data then
    let r := decodeString cs.KubeVersion v; ({ cs with KubeVersion := r.1 }, r.2)
  else if keyMatches key.data "timeout".data then
    let r := decodeInt cs.Timeout v; ({ cs with Timeout := r.1 }, r.2)
  else if keyMatches key.data "ttl".data then
    let r := decodeInt cs.TTL v; ({ cs with TTL := r.1 }, r.2)
  else if keyMatches key.data "owner".data then
    let r := decodeString cs.Owner v; ({ cs with Owner := r.1 }, r.2)
  else if keyMatches key.data "created".data then
    let r := decodeString cs.CreationTime v; ({ cs with CreationTime := r.1 }, r.2)
  else if keyMatches key.data "details".data then
    let r := decodeMap cs.ClusterDetails v; ({ cs with ClusterDetails := r.1 }, r.2)
  else (cs, none)

/-- Storing the members of a JSON object into a `ClusterSpec`, in order. -/
def storeMembers : ClusterSpec → List (String × JValue) →
    ClusterSpec × Option String
  | cs, [] => (cs, none)
  | cs, (k, v) :: rest =>
    let r := storeMember cs k v
    let r2 := storeMembers r.1 rest
    (r2.1, r.2.orElse fun _ => r2.2)

/-- Storing a JSON value into a `ClusterSpec`. -/
def decodeClusterSpec (cs : ClusterSpec) : JValue → ClusterSpec × Option String
  | .obj members => storeMembers cs members
  | .null => (cs, none)
  | v => (cs, some v.kind)

/-- Storing the elements of a JSON array into fresh elements of a `[]string`. -/
def decodeElems : List JValue → List String × Option String
  | [] => ([], none)
  | v :: rest =>
    let r := decodeString "" v
    let r2 := decodeElems rest
    (r.1 :: r2.1, r.2.orElse fun _ => r2.2)

/-- Storing a JSON value into a `[]string`: an array replaces the slice by one
element per array element, `null` makes the slice nil. -/
def decodeStrings (dst : List String) : JValue → List String × Option String
  | .arr elems => decodeElems elems
  | .null => ([], none)
  | v => (dst, some v.kind)

/-- Model of `json.Unmarshal([]byte(data), &cs)` for a `ClusterSpec`. -/
def UnmarshalClusterSpec (data : String) (cs : ClusterSpec) :
    ClusterSpec × Option JsonError :=
  match parseJSON data with
  | none => (cs, some .malformed)
  | some v =>
    let r := decodeClusterSpec cs v
    (r.1, r.2.map JsonError.typeMismatch)

/-- Model of `json.Unmarshal([]byte(data), &cl)` for a `[]string`. -/
def UnmarshalStrings (data : String) (cl : List String) :
    List String × Option JsonError :=
  match parseJSON data with
  | none => (cl, some .malformed)
  | some v =>
    let r := decodeStrings cl v
    (r.1, r.2.map JsonError.typeMismatch)

/-- The function `parseCS` of `main.go`: the record (zero valued before the
call) and the error of the decoder. -/
def parseCS (clusterspec : String) : ClusterSpec × Option JsonError :=
  UnmarshalClusterSpec clusterspec {}

/-! ## Effects and the environment -/

/-- The two modes of the process runner: `shellout` and `bshellout`. -/
inductive Mode where
  | streaming
  | capturing
  deriving Repr, DecidableEq

/-- What the program does to the outside, in order. The lines a child process
prints are copied by concurrent readers and are not part of the trace. -/
inductive Event where
  /-- Text the program writes to its standard output. -/
  | stdout (text : String)
  /-- Text the program writes to its standard error. -/
  | stderr (text : String)
  /-- A call of the process runner on a command and its arguments. -/
  | exec (mode : Mode) (command : String) (args : List String)
  /-- The lines written to the tabwriter, handed over by `Flush`; the
  alignment of the columns is left to the tabwriter. -/
  | table (lines : List String)
  deriving Repr, DecidableEq

/-- How the process ends: `main` returns (exit status 0), `os.Exit(code)`, or
a run-time panic on an index out of range. -/
inductive Outcome where
  | returned
  | exit (code : Nat)
  | panicIndex (index length : Nat)
  deriving Repr, DecidableEq

/-- The error numbers a failed `os.Stat` carries: no such file or directory,
a component of the path is not a directory, permission denied, or any other
error number. -/
inductive Errno where
  | ENOENT
  | ENOTDIR
  | EACCES
  | other (code : Nat)
  deriving Repr, DecidableEq

/-- The error of `os.Stat`: its text and the error number underneath. -/
structure StatError where
  text : String
  errno : Errno
  deriving Repr, DecidableEq

/-- Model of `os.IsNotExist` on the error of `os.Stat`: true for the error
number `ENOENT` only. -/
def IsNotExist (err : StatError) : Bool :=
  err.errno = Errno.ENOENT

/-- What happens to one subprocess: the stderr pipe, the stdout pipe or the
start fails (with the text of the error), or the child runs, printing the
given lines on its standard output, and `Wait` returns an error or not. -/
inductive RunResult where
  | stderrPipeFailed (err : String)
  | stdoutPipeFailed (err : String)
  | startFailed (err : String)
  | ran (stdoutLines : List String) (waitErr : Option String)
  deriving Repr, DecidableEq

/-- The environment of one run of the program. -/
structure World where
  /-- The argument vector `os.Args`, program name first. -/
  Args : List String
  /-- The package variable `Version`, set when the program is built. -/
  Version : String
  /-- The function `os.LookupEnv`; `none` is an unset variable. -/
  LookupEnv : String → Option String
  /-- The error of `os.Stat` on a path; `none` is success. -/
  Stat : String → Option StatError
  /-- The fate of the subprocess launched after `n` earlier ones, for its
  command and arguments. -/
  run : Nat → String → List String → RunResult
  /-- The text `Error()` of a decoder error, as the library words it. -/
  jsonErrorText : JsonError → String

/-- The function `pinfo`. -/
def pinfo (msg : String) : List Event :=
  [Event.stdout (Sprintf "\x1b[94m%v\x1b[0m\n" [.str msg])]

/-- The function `perr`; the error is given by its text, `none` is `nil`. -/
def perr (msg : String) (err : Option String) : List Event :=
  match err with
  | some e => [Event.stderr (Sprintf "%v: \x1b[91m%v\x1b[0m\n" [.str msg, .str e])]
  | none => [Event.stderr (Sprintf "\x1b[91m%v\x1b[0m\n" [.str msg])]

/-- The function `slurp`, on the lines the scanner yields. -/
def slurp (lines : List String) : String :=
  lines.foldl (fun buf line => buf ++ line) ""

/-- The function `shellout`, for the subprocess launched after `n` others. -/
def shellout (w : World) (n : Nat) (command : String) (args : List String) : List Event :=
  Event.exec .streaming command args ::
    match w.run n command args with
    | .stderrPipeFailed e => perr "Can't shell out due to issues with stderr:" (some e)
    | .stdoutPipeFailed e => perr "Can't shell out due to issues with stdout:" (some e)
    | .startFailed e => perr "Can't shell out due to issues with starting command:" (some e)
    | .ran _ (some e) => perr "Something bad happened after command completed:" (some e)
    | .ran _ none => []

/-- The function `bshellout`: its events and the text it returns. -/
def bshellout (w : World) (n : Nat) (command : String) (args : List String) :
    List Event × String :=
  match w.run n command args with
  | .stderrPipeFailed e =>
    (Event.exec .capturing command args ::
      perr "Can't shell out due to issues with stderr:" (some e), "")
  | .stdoutPipeFailed e =>
    (Event.exec .capturing command args ::
      perr "Can't shell out due to issues with stdout:" (some e), "")
  | .startFailed e =>
    (Event.exec .capturing command args ::
      perr "Can't shell out due to issues with starting command:" (some e), "")
  | .ran lines (some e) =>
    (Event.exec .capturing command args ::
      perr "Something bad happened after command completed:" (some e), slurp lines)
  | .ran lines none => ([Event.exec .capturing command args], slurp lines)

/-! ## `listClusters` -/

/-- The header line written to the tabwriter. -/
def tableHeader : String := "NAME\tID\tKUBERNETES\tNUM WORKERS\tTIMEOUT\tTTL\tOWNER\t\n"

/-- The line written to the tabwriter for one record. -/
def tableRow (cs : ClusterSpec) : String :=
  Sprintf "%s\t%s\tv%s\t%d\t%d min\t%d min\t%s\t\n"
    [.str cs.Name, .str cs.ID, .str cs.KubeVersion, .int cs.NumWorkers, .int cs.Timeout,
     .int cs.TTL, .str cs.Owner]

/-- The loop of `listClusters` over the identifiers: the events of the lookups
and the lines written to the tabwriter. `n` subprocesses ran before. -/
def listLoop (w : World) (eksphome : String) : Nat → List String → List Event × List String
  | _, [] => ([], [])
  | n, cID :: rest =>
    let res := bshellout w n (eksphome ++ "/eksp-list.sh") [cID]
    let p := parseCS res.2
    let r := listLoop w eksphome (n + 1) rest
    match p.2 with
    | some _ => (res.1 ++ r.1, r.2)
    | none => (res.1 ++ r.1, tableRow { p.1 with ID := cID } :: r.2)

/-- The function `listClusters`, called after `n` subprocesses ran. -/
def listClusters (w : World) (n : Nat) (eksphome cIDs : String) : List Event :=
  let d := UnmarshalStrings cIDs []
  let diag := match d.2 with
    | some e => perr "Can't render cluster spec due to:" (some (w.jsonErrorText e))
    | none => []
  if d.1.length = 0 then
    diag ++ pinfo "No clusters found"
  else
    let r := listLoop w eksphome n d.1
    diag ++ r.1 ++ [Event.table (tableHeader :: r.2)]

/-! ## `main` -/

/-- The usage line. -/
def usage : String :=
  "Please specify one of the following commands: install, uninstall, create, list, or prolong"

/-- The function `main`: the trace of the run and how it ends. -/
def main (w : World) : List Event × Outcome :=
  if w.Args.length ≤ 1 then
    (pinfo (Sprintf "This is EKSphemeral in version %v" [.str w.Version]) ++ perr usage none,
      .exit 1)
  else
    match w.LookupEnv "EKSPHEMERAL_HOME" with
    | none => (perr "Please set the EKSPHEMERAL_HOME environment variable " none, .exit 1)
    | some eksphome =>
      match w.Args[1]? with
      | none => ([], .panicIndex 1 w.Args.length)
      | some cmd =>
        if cmd = "install" ∨ cmd = "i" then
          (pinfo "Trying to install EKSphemeral ..." ++
            shellout w 0 (eksphome ++ "/eksp-up.sh") [], .returned)
        else if cmd = "uninstall" ∨ cmd = "u" then
          (pinfo "Trying to uninstall EKSphemeral ..." ++
            shellout w 0 (eksphome ++ "/eksp-down.sh") [], .returned)
        else if cmd = "create" ∨ cmd = "c" then
          let start := pinfo "Trying to create a new ephemeral cluster ..."
          if w.Args.length > 2 then
            match w.Args[2]? with
            | none => (start, .panicIndex 2 w.Args.length)
            | some clusterSpecFile =>
              let note := pinfo ("... using cluster spec " ++ clusterSpecFile)
              match w.Stat clusterSpecFile with
              | some err =>
                if IsNotExist err then
                  (start ++ note ++
                    perr "Can't create a cluster due to invalid spec:" (some err.text), .exit 2)
                else
                  (start ++ note ++
                    shellout w 0 (eksphome ++ "/eksp-create.sh") [clusterSpecFile], .returned)
              | none =>
                (start ++ note ++
                  shellout w 0 (eksphome ++ "/eksp-create.sh") [clusterSpecFile], .returned)
          else
            -- creating cluster with defaults:
            match w.Args[2]? with
            | none => (start, .panicIndex 2 w.Args.length)
            | some arg =>
              (start ++ shellout w 0 (eksphome ++ "/eksp-create.sh") [arg], .returned)
        else if cmd = "list" ∨ cmd = "ls" ∨ cmd = "l" then
          if w.Args.length > 2 then
            match w.Args[2]? with
            | none => ([], .panicIndex 2 w.Args.length)
            | some cID =>
              let res := bshellout w 0 (eksphome ++ "/eksp-list.sh") [cID]
              let p := parseCS res.2
              match p.2 with
              | some _ =>
                (res.1 ++ perr
                  "Can't render cluster details. Cluster could be gone or control plane is down :("
                  none, .returned)
              | none =>
                (res.1 ++ [Event.stdout (ClusterSpec.String { p.1 with ID := cID } ++ "\n")],
                  .returned)
          else
            let res := bshellout w 0 (eksphome ++ "/eksp-list.sh") []
            (res.1 ++ listClusters w 1 eksphome res.2, .returned)
        else if cmd = "prolong" ∨ cmd = "p" then
          if w.Args.length < 4 then
            (perr
              "Can't prolong cluster lifetime without both the cluster ID and the time in minutes provided"
              none, .exit 3)
          else
            match w.Args[2]?, w.Args[3]? with
            | some cID, some prolongFor =>
              (shellout w 0 (eksphome ++ "/eksp-prolong.sh") [cID, prolongFor], .returned)
            | none, _ => ([], .panicIndex 2 w.Args.length)
            | _, none => ([], .panicIndex 3 w.Args.length)
        else
          (perr usage none, .returned)

/-- The subprocess invocations of a trace, in order. -/
def launches : List Event → List (Mode × String × List String)
  | [] => []
  | .exec m c a :: rest => (m, c, a) :: launches rest
  | _ :: rest => launches rest

/-- The tables of a trace, in order, each as the list of its lines. -/
def tables : List Event → List (List String)
  | [] => []
  | .table lines :: rest => lines :: tables rest
  | _ :: rest => tables rest

/-- The texts a trace writes to standard output, in order. -/
def stdouts : List Event → List String
  | [] => []
  | .stdout text :: rest => text :: stdouts rest
  | _ :: rest => stdouts rest

/-! ## Sample inputs -/

/-- A record as the lookup script describes it, used to instantiate the
theorems on the detail view. -/
def sampleRecord : ClusterSpec :=
  { (parseCS ("\x7b\"name\":\"dev\",\"numworkers\":2,\"kubeversion\":\"1.12\",\"timeout\":10,"
      ++ "\"ttl\":-3,\"owner\":\"me@example.com\",\"details\":\x7b\"status\":\"ACTIVE\"\x7d\x7d")).1
    with ID := "abc123" }

/-- A world in which every subprocess runs and prints nothing, no file
exists and `EKSPHEMERAL_HOME` is `/opt/eksp`, for the given argument vector. -/
def quietWorld (args : List String) : World :=
  { Args := args
    Version := "0.0.0"
    LookupEnv := fun name => if name = "EKSPHEMERAL_HOME" then some "/opt/eksp" else none
    Stat := fun path => some { text := "stat " ++ path ++ ": no such file or directory",
                               errno := Errno.ENOENT }
    run := fun _ _ _ => .ran [] none
    jsonErrorText := fun _ => "json error" }

/-- A world for `eksp create plainfile/x.json` where `plainfile` is a regular
file: `os.Stat` fails because a component of the path is not a directory. -/
def notDirWorld : World :=
  { quietWorld ["eksp", "create", "plainfile/x.json"] with
    Stat := fun path => some { text := "stat " ++ path ++ ": not a directory",
                               errno := Errno.ENOTDIR } }

/-- A world whose list script prints, for any identifier, a record named
after the number of subprocesses launched before it. -/
def twoClusterWorld : World :=
  { quietWorld ["eksp", "list"] with
    run := fun n _ _ =>
      if n = 1 then .ran ["\x7b\"name\":\"one\",\"id\":\"zz\",\"numworkers\":1,\"ttl\":5\x7d"] none
      else .ran ["\x7b\"name\":\"two\",\"kubeversion\":\"1.12\",", "\"owner\":\"me\"\x7d"] none }

/-- A world for `eksp list abc123` whose lookup prints a record with an
empty name and a foreign identifier. -/
def goneClusterWorld : World :=
  { quietWorld ["eksp", "list", "abc123"] with
    run := fun _ _ _ => .ran ["\x7b\"id\":\"other\",\"name\":\"\",\"details\":\x7b\x7d\x7d"] none }

/-! ## Helper lemmas -/

theorem launches_append (xs ys : List Event) :
    launches (xs ++ ys) = launches xs ++ launches ys := by
  induction xs with
  | nil => rfl
  | cons x xs ih => cases x <;> simp [launches, ih]

theorem launches_pinfo (msg : String) : launches (pinfo msg) = [] := rfl

theorem launches_perr (msg : String) (err : Option String) : launches (perr msg err) = [] := by
  cases err <;> rfl

theorem launches_shellout (w : World) (n : Nat) (command : String) (args : List String) :
    launches (shellout w n command args) = [(Mode.streaming, command, args)] := by
  unfold shellout
  cases h : w.run n command args with
  | ran lines e => cases e <;> simp [launches, launches_perr]
  | _ => simp [launches, launches_perr]

theorem launches_bshellout (w : World) (n : Nat) (command : String) (args : List String) :
    launches (bshellout w n command args).1 = [(Mode.capturing, command, args)] := by
  unfold bshellout
  cases h : w.run n command args with
  | ran lines e => cases e <;> simp [launches, launches_perr]
  | _ => simp [launches, launches_perr]

theorem decodeElems_strings (ids : List String) :
    decodeElems (ids.map JValue.str) = (ids, none) := by
  induction ids with
  | nil => rfl
  | cons x xs ih => simp [decodeElems, decodeString, ih]

theorem tables_append (xs ys : List Event) :
    tables (xs ++ ys) = tables xs ++ tables ys := by
  induction xs with
  | nil => rfl
  | cons x xs ih => cases x <;> simp [tables, ih]

theorem tables_perr (msg : String) (err : Option String) : tables (perr msg err) = [] := by
  cases err <;> rfl

theorem tables_bshellout (w : World) (n : Nat) (command : String) (args : List String) :
    tables (bshellout w n command args).1 = [] := by
  unfold bshellout
  cases h : w.run n command args with
  | ran lines e => cases e <;> simp [tables, tables_perr]
  | _ => simp [tables, tables_perr]

set_option maxRecDepth 100000 in
theorem tableRow_eq (cs : ClusterSpec) :
    tableRow cs =
      cs.Name ++ "\t" ++ cs.ID ++ "\tv" ++ cs.KubeVersion ++ "\t" ++ toString cs.NumWorkers
        ++ "\t" ++ toString cs.Timeout ++ " min\t" ++ toString cs.TTL ++ " min\t" ++ cs.Owner
        ++ "\t\n" := by
  apply String.ext
  simp [tableRow, Sprintf, sprintfAux, FmtArg.render, String.data_append]

theorem listLoop_launches (w : World) (eksphome : String) (ids : List String) (n : Nat) :
    launches (listLoop w eksphome n ids).1
      = ids.map fun cID => (Mode.capturing, eksphome ++ "/eksp-list.sh", [cID]) := by
  induction ids generalizing n with
  | nil => rfl
  | cons cID rest ih =>
    unfold listLoop
    cases h : (parseCS (bshellout w n (eksphome ++ "/eksp-list.sh") [cID]).2).2 <;>
      simp [h, launches_append, launches_bshellout, ih]

theorem listLoop_tables (w : World) (eksphome : String) (ids : List String) (n : Nat) :
    tables (listLoop w eksphome n ids).1 = [] := by
  induction ids generalizing n with
  | nil => rfl
  | cons cID rest ih =>
    unfold listLoop
    cases h : (parseCS (bshellout w n (eksphome ++ "/eksp-list.sh") [cID]).2).2 <;>
      simp [h, tables_append, tables_bshellout, ih]

theorem listLoop_rows (w : World) (eksphome : String) (ids : List String) (n : Nat) :
    (listLoop w eksphome n ids).2
      = (ids.enumFrom n).filterMap fun p =>
          if (parseCS (bshellout w p.1 (eksphome ++ "/eksp-list.sh") [p.2]).2).2.isNone then
            some (tableRow
              { (parseCS (bshellout w p.1 (eksphome ++ "/eksp-list.sh") [p.2]).2).1 with
                ID := p.2 })
          else none := by
  induction ids generalizing n with
  | nil => rfl
  | cons cID rest ih =>
    unfold listLoop
    cases h : (parseCS (bshellout w n (eksphome ++ "/eksp-list.sh") [cID]).2).2 <;>
      simp [List.enumFrom, List.filterMap_cons, h, ih]

theorem stdouts_append (xs ys : List Event) :
    stdouts (xs ++ ys) = stdouts xs ++ stdouts ys := by
  induction xs with
  | nil => rfl
  | cons x xs ih => cases x <;> simp [stdouts, ih]

theorem stdouts_perr (msg : String) (err : Option String) : stdouts (perr msg err) = [] := by
  cases err <;> rfl

theorem stdouts_bshellout (w : World) (n : Nat) (command : String) (args : List String) :
    stdouts (bshellout w n command args).1 = [] := by
  unfold bshellout
  cases h : w.run n command args with
  | ran lines e => cases e <;> simp [stdouts, stdouts_perr]
  | _ => simp [stdouts, stdouts_perr]

theorem listLoop_stdouts (w : World) (eksphome : String) (ids : List String) (n : Nat) :
    stdouts (listLoop w eksphome n ids).1 = [] := by
  induction ids generalizing n with
  | nil => rfl
  | cons cID rest ih =>
    unfold listLoop
    cases h : (parseCS (bshellout w n (eksphome ++ "/eksp-list.sh") [cID]).2).2 <;>
      simp [h, stdouts_append, stdouts_bshellout, ih]

/-! ## The detail view -/

/-- C1: a record whose name is empty renders as the fixed sentinel text,
whatever its other fields hold. -/
theorem String_empty_name (cs : ClusterSpec) (h : cs.Name = "") :
    cs.String = "Cluster does not exist or control plane is down" := by
  unfold ClusterSpec.String
  rw [if_pos h]
  decide

/-- C1 at the record parsed from the lookup payload with an empty name, its
identifier set to the one queried. -/
theorem String_empty_name_witness :
    ({ (parseCS "\x7b\"name\":\"\",\"details\":\x7b\x7d\x7d").1 with ID := "abc123" } : ClusterSpec).Name = ""
      ∧ ClusterSpec.String { (parseCS "\x7b\"name\":\"\",\"details\":\x7b\x7d\x7d").1 with ID := "abc123" }
          = "Cluster does not exist or control plane is down" :=
  ⟨by decide, String_empty_name _ (by decide)⟩

set_option maxRecDepth 100000 in
/-- C2: a record whose name is not empty renders in the fixed layout:
identifier, name, version after a `v`, worker count, timeout and TTL in
decimal followed by ` min`, owner, then the five detail lines in the order
status, endpoint, platformv, vpcconf, iamrole; a detail value is the entry of
the details map for its key, and the empty string when the map is nil or has
no such key. The function is total, so rendering cannot fail. -/
theorem String_layout (cs : ClusterSpec) (h : cs.Name ≠ "") :
    cs.String =
        "ID:\t\t" ++ cs.ID ++ "\nName:\t\t" ++ cs.Name ++ "\nKubernetes:\tv" ++ cs.KubeVersion
          ++ "\nWorker nodes:\t" ++ toString cs.NumWorkers ++ "\nTimeout:\t" ++ toString cs.Timeout
          ++ " min\nTTL:\t\t" ++ toString cs.TTL ++ " min\nOwner:\t\t" ++ cs.Owner
          ++ "\nDetails:\n\tStatus:\t\t\t" ++ cs.ClusterDetails.index "status"
          ++ "\n\tEndpoint:\t\t" ++ cs.ClusterDetails.index "endpoint"
          ++ "\n\tPlatform version:\t" ++ cs.ClusterDetails.index "platformv"
          ++ "\n\tVPC config:\t\t" ++ cs.ClusterDetails.index "vpcconf"
          ++ "\n\tIAM role:\t\t" ++ cs.ClusterDetails.index "iamrole" ++ "\n"
      ∧ (∀ k, cs.ClusterDetails = none → cs.ClusterDetails.index k = "")
      ∧ (∀ k kvs, cs.ClusterDetails = some kvs → kvs.lookup k = none →
          cs.ClusterDetails.index k = "")
      ∧ (∀ k kvs v, cs.ClusterDetails = some kvs → kvs.lookup k = some v →
          cs.ClusterDetails.index k = v) := by
  refine ⟨?_, ?_, ?_, ?_⟩
  · unfold ClusterSpec.String
    rw [if_neg h]
    apply String.ext
    simp [Sprintf, sprintfAux, FmtArg.render, String.data_append]
  · intro k hk
    simp [hk, GoMap.index]
  · intro k kvs hk hl
    simp [hk, GoMap.index, hl]
  · intro k kvs v hk hl
    simp [hk, GoMap.index, hl]

set_option maxRecDepth 100000 in
/-- C2 at a parsed record: negative and positive integers in decimal, a
detail present in the map and four absent ones. -/
theorem String_layout_witness :
    sampleRecord.Name ≠ ""
      ∧ sampleRecord.String =
          "ID:\t\tabc123\nName:\t\tdev\nKubernetes:\tv1.12\nWorker nodes:\t2\nTimeout:\t10 min\n"
            ++ "TTL:\t\t-3 min\nOwner:\t\tme@example.com\nDetails:\n\tStatus:\t\t\tACTIVE\n"
            ++ "\tEndpoint:\t\t\n\tPlatform version:\t\n\tVPC config:\t\t\n\tIAM role:\t\t\n" :=
  ⟨by decide, (String_layout sampleRecord (by decide)).1.trans (by decide)⟩

/-! ## The dispatcher -/

/-- C3: with the verb `create` or `c` and no further argument the dispatcher
evaluates `os.Args[2]` on a vector of length 2: the run ends in an
index-out-of-range panic after the announcement line, and the create script
is never invoked. -/
theorem main_create_without_path (w : World) (prog verb eksphome : String)
    (hargs : w.Args = [prog, verb]) (hverb : verb = "create" ∨ verb = "c")
    (henv : w.LookupEnv "EKSPHEMERAL_HOME" = some eksphome) :
    main w = (pinfo "Trying to create a new ephemeral cluster ...", Outcome.panicIndex 2 2)
      ∧ launches (main w).1 = [] := by
  rcases hverb with rfl | rfl <;> simp [main, hargs, henv, launches_pinfo]

/-- C3 at the argument vector `eksp create`. -/
theorem main_create_without_path_witness :
    main (quietWorld ["eksp", "create"])
        = (pinfo "Trying to create a new ephemeral cluster ...", Outcome.panicIndex 2 2)
      ∧ launches (main (quietWorld ["eksp", "create"])).1 = [] :=
  main_create_without_path (quietWorld ["eksp", "create"]) "eksp" "create" "/opt/eksp"
    rfl (Or.inl rfl) rfl

/-- C4, amended: with the verb `create` or `c` and a spec-file path, when
`os.Stat` fails with an error that `os.IsNotExist` recognises (no such file
or directory) the run ends with exit code 2 and no subprocess is invoked;
when `os.Stat` succeeds the run invokes `<home>/eksp-create.sh` exactly once,
in streaming mode, with the path as its single argument, and returns; and a
`Stat` error of any other kind does not stop the run either: the script is
invoked in the same way. -/
theorem main_create_with_path (w : World) (prog verb file eksphome : String)
    (more : List String) (hargs : w.Args = prog :: verb :: file :: more)
    (hverb : verb = "create" ∨ verb = "c")
    (henv : w.LookupEnv "EKSPHEMERAL_HOME" = some eksphome) :
    (∀ err, w.Stat file = some err → IsNotExist err = true →
        (main w).2 = Outcome.exit 2 ∧ launches (main w).1 = [])
      ∧ (w.Stat file = none →
        (main w).2 = Outcome.returned
          ∧ launches (main w).1 = [(Mode.streaming, eksphome ++ "/eksp-create.sh", [file])])
      ∧ (∀ err, w.Stat file = some err → IsNotExist err = false →
        (main w).2 = Outcome.returned
          ∧ launches (main w).1
              = [(Mode.streaming, eksphome ++ "/eksp-create.sh", [file])]) := by
  refine ⟨?_, ?_, ?_⟩
  · intro err hstat hne
    rcases hverb with rfl | rfl <;>
      simp [main, hargs, henv, hstat, hne, launches_append, launches_pinfo, launches_perr]
  · intro hstat
    rcases hverb with rfl | rfl <;>
      simp [main, hargs, henv, hstat, launches_append, launches_pinfo, launches_shellout]
  · intro err hstat hne
    rcases hverb with rfl | rfl <;>
      simp [main, hargs, henv, hstat, hne, launches_append, launches_pinfo, launches_shellout]

/-- C4 as stated fails at `eksp create plainfile/x.json`, where `plainfile` is
a regular file: nothing exists at the path and `os.Stat` fails, with the error
number `ENOTDIR`, which `os.IsNotExist` does not recognise; the run does not
exit with code 2 but invokes the create script with the path and returns. -/
theorem main_create_not_a_directory :
    notDirWorld.Args = ["eksp", "create", "plainfile/x.json"]
      ∧ notDirWorld.LookupEnv "EKSPHEMERAL_HOME" = some "/opt/eksp"
      ∧ notDirWorld.Stat "plainfile/x.json"
          = some { text := "stat plainfile/x.json: not a directory", errno := Errno.ENOTDIR }
      ∧ (main notDirWorld).2 ≠ Outcome.exit 2
      ∧ (main notDirWorld).2 = Outcome.returned
      ∧ launches (main notDirWorld).1
          = [(Mode.streaming, "/opt/eksp/eksp-create.sh", ["plainfile/x.json"])] := by
  decide

/-- C5: with the verb `prolong` or `p`, fewer than two arguments after the
verb end the run with exit code 3 without any subprocess; two or more make
the run invoke `<home>/eksp-prolong.sh` exactly once, in streaming mode, with
the cluster id and the minutes in that order. -/
theorem main_prolong (w : World) (prog verb eksphome : String) (rest : List String)
    (hargs : w.Args = prog :: verb :: rest) (hverb : verb = "prolong" ∨ verb = "p")
    (henv : w.LookupEnv "EKSPHEMERAL_HOME" = some eksphome) :
    (rest.length < 2 → (main w).2 = Outcome.exit 3 ∧ launches (main w).1 = [])
      ∧ (∀ cID prolongFor more, rest = cID :: prolongFor :: more →
          (main w).2 = Outcome.returned
            ∧ launches (main w).1
                = [(Mode.streaming, eksphome ++ "/eksp-prolong.sh", [cID, prolongFor])]) := by
  constructor
  · intro hlen
    have h4 : rest.length + 1 + 1 < 4 := by omega
    rcases hverb with rfl | rfl <;> simp [main, hargs, henv, h4, launches_perr]
  · intro cID prolongFor more hrest
    subst hrest
    have h4 : ¬ (more.length + 1 + 1 + 1 + 1 < 4) := by omega
    rcases hverb with rfl | rfl <;> simp [main, hargs, henv, h4, launches_shellout]

/-- C6: when `EKSPHEMERAL_HOME` is not set, every argument vector, empty or
not and whatever its verb, ends the run with exit code 1 and no subprocess
is invoked. -/
theorem main_without_home (w : World) (henv : w.LookupEnv "EKSPHEMERAL_HOME" = none) :
    (main w).2 = Outcome.exit 1 ∧ launches (main w).1 = [] := by
  unfold main
  by_cases hlen : w.Args.length ≤ 1
  · simp [hlen, launches_append, launches_pinfo, launches_perr]
  · simp [hlen, henv, launches_perr]

/-- C4, amended, at `eksp create missing.json` (the path does not exist), at
`eksp c spec.json` with a `Stat` that succeeds, and at
`eksp create plainfile/x.json` with a `Stat` that fails on a path component
that is not a directory. -/
theorem main_create_with_path_witness :
    ((main (quietWorld ["eksp", "create", "missing.json"])).2 = Outcome.exit 2
        ∧ launches (main (quietWorld ["eksp", "create", "missing.json"])).1 = [])
      ∧ ((main { quietWorld ["eksp", "c", "spec.json"] with Stat := fun _ => none }).2
            = Outcome.returned
          ∧ launches (main { quietWorld ["eksp", "c", "spec.json"] with Stat := fun _ => none }).1
            = [(Mode.streaming, "/opt/eksp" ++ "/eksp-create.sh", ["spec.json"])])
      ∧ ((main notDirWorld).2 = Outcome.returned
          ∧ launches (main notDirWorld).1
            = [(Mode.streaming, "/opt/eksp" ++ "/eksp-create.sh", ["plainfile/x.json"])]) :=
  ⟨(main_create_with_path (quietWorld ["eksp", "create", "missing.json"])
      "eksp" "create" "missing.json" "/opt/eksp" [] rfl (Or.inl rfl) rfl).1 _ rfl rfl,
   (main_create_with_path { quietWorld ["eksp", "c", "spec.json"] with Stat := fun _ => none }
      "eksp" "c" "spec.json" "/opt/eksp" [] rfl (Or.inr rfl) rfl).2.1 rfl,
   (main_create_with_path notDirWorld
      "eksp" "create" "plainfile/x.json" "/opt/eksp" [] rfl (Or.inl rfl) rfl).2.2 _ rfl rfl⟩

/-- C5 at `eksp prolong abc123` (one argument) and `eksp p abc123 30`. -/
theorem main_prolong_witness :
    ((main (quietWorld ["eksp", "prolong", "abc123"])).2 = Outcome.exit 3
        ∧ launches (main (quietWorld ["eksp", "prolong", "abc123"])).1 = [])
      ∧ ((main (quietWorld ["eksp", "p", "abc123", "30"])).2 = Outcome.returned
          ∧ launches (main (quietWorld ["eksp", "p", "abc123", "30"])).1
            = [(Mode.streaming, "/opt/eksp" ++ "/eksp-prolong.sh", ["abc123", "30"])]) :=
  ⟨(main_prolong (quietWorld ["eksp", "prolong", "abc123"]) "eksp" "prolong" "/opt/eksp"
      ["abc123"] rfl (Or.inl rfl) rfl).1 (by decide),
   (main_prolong (quietWorld ["eksp", "p", "abc123", "30"]) "eksp" "p" "/opt/eksp"
      ["abc123", "30"] rfl (Or.inr rfl) rfl).2 "abc123" "30" [] rfl⟩

/-- C6 at `eksp create spec.json` without `EKSPHEMERAL_HOME`. -/
theorem main_without_home_witness :
    (main { quietWorld ["eksp", "create", "spec.json"] with LookupEnv := fun _ => none }).2
        = Outcome.exit 1
      ∧ launches
          (main { quietWorld ["eksp", "create", "spec.json"] with LookupEnv := fun _ => none }).1
        = [] :=
  main_without_home { quietWorld ["eksp", "create", "spec.json"] with LookupEnv := fun _ => none }
    rfl

/-! ## Listing -/

/-- C7: for a captured text that is a JSON array of `N ≥ 1` identifiers,
`listClusters` makes one lookup per identifier, in the order of the array,
and flushes exactly one table, as its last event: the header line, then one
line for each identifier whose lookup output parses without error, in the
order of the array, and no line for the others (so at most `N` lines). The
line of identifier `X` holds the cells name, `X`, `v` and the version, the
worker count, the timeout and the TTL followed by ` min`, and the owner, each
closed by a tab. -/
theorem listClusters_table (w : World) (n : Nat) (eksphome cIDs : String) (ids : List String)
    (hne : ids ≠ []) (hjson : parseJSON cIDs = some (JValue.arr (ids.map JValue.str))) :
    let lookup := fun (p : Nat × String) =>
      parseCS (bshellout w p.1 (eksphome ++ "/eksp-list.sh") [p.2]).2
    let rows := (ids.enumFrom n).filterMap fun p =>
      if (lookup p).2.isNone then
        some ((lookup p).1.Name ++ "\t" ++ p.2 ++ "\tv" ++ (lookup p).1.KubeVersion ++ "\t"
          ++ toString (lookup p).1.NumWorkers ++ "\t" ++ toString (lookup p).1.Timeout
          ++ " min\t" ++ toString (lookup p).1.TTL ++ " min\t" ++ (lookup p).1.Owner ++ "\t\n")
      else none
    launches (listClusters w n eksphome cIDs)
        = ids.map (fun cID => (Mode.capturing, eksphome ++ "/eksp-list.sh", [cID]))
      ∧ tables (listClusters w n eksphome cIDs)
        = [("NAME\tID\tKUBERNETES\tNUM WORKERS\tTIMEOUT\tTTL\tOWNER\t\n" :: rows)]
      ∧ (listClusters w n eksphome cIDs).getLast?
        = some (Event.table ("NAME\tID\tKUBERNETES\tNUM WORKERS\tTIMEOUT\tTTL\tOWNER\t\n" :: rows))
      ∧ rows.length ≤ ids.length := by
  intro lookup rows
  have hdec : UnmarshalStrings cIDs [] = (ids, none) := by
    simp [UnmarshalStrings, hjson, decodeStrings, decodeElems_strings]
  have hlen : ¬ ids.length = 0 := by
    intro h
    exact hne (List.length_eq_zero.mp h)
  have hrows : (listLoop w eksphome n ids).2 = rows := by
    rw [listLoop_rows]
    simp only [rows, lookup, tableRow_eq]
  have hlist : listClusters w n eksphome cIDs
      = (listLoop w eksphome n ids).1 ++ [Event.table (tableHeader :: rows)] := by
    simp [listClusters, hdec, hlen, hrows]
  refine ⟨?_, ?_, ?_, ?_⟩
  · rw [hlist, launches_append, listLoop_launches]
    simp [launches]
  · rw [hlist, tables_append, listLoop_tables]
    simp [tables, tableHeader]
  · rw [hlist]
    simp [tableHeader]
  · calc rows.length ≤ (ids.enumFrom n).length := List.length_filterMap_le _ _
      _ = ids.length := List.enumFrom_length

set_option maxRecDepth 100000 in
/-- C7 at the array `["a","b"]` with two lookups that print valid records:
the header and two rows, in the order a, b, each with the identifier queried. -/
theorem listClusters_table_witness :
    parseJSON "[\"a\",\"b\"]" = some (JValue.arr (["a", "b"].map JValue.str))
      ∧ launches (listClusters twoClusterWorld 1 "/opt/eksp" "[\"a\",\"b\"]")
        = [(Mode.capturing, "/opt/eksp/eksp-list.sh", ["a"]),
           (Mode.capturing, "/opt/eksp/eksp-list.sh", ["b"])]
      ∧ tables (listClusters twoClusterWorld 1 "/opt/eksp" "[\"a\",\"b\"]")
        = [["NAME\tID\tKUBERNETES\tNUM WORKERS\tTIMEOUT\tTTL\tOWNER\t\n",
            "one\ta\tv\t1\t0 min\t5 min\t\t\n",
            "two\tb\tv1.12\t0\t0 min\t0 min\tme\t\n"]] :=
  ⟨rfl,
   (listClusters_table twoClusterWorld 1 "/opt/eksp" "[\"a\",\"b\"]" ["a", "b"]
      (by decide) rfl).1.trans (by decide),
   (listClusters_table twoClusterWorld 1 "/opt/eksp" "[\"a\",\"b\"]" ["a", "b"]
      (by decide) rfl).2.1.trans (by decide)⟩

/-- C8: with the verb `list`, `ls` or `l` and a cluster id `X`, the run makes
one capturing lookup of `X`. When the captured text fails to parse, the run
then writes exactly the fixed diagnostic to standard error, prints no record
and returns normally; when it parses, the run prints the detail view of the
parsed record with its identifier replaced by `X`, and returns normally. The
empty text fails to parse, and it is what a lookup that could not be started
yields. -/
theorem main_list_one (w : World) (prog verb cID eksphome : String) (more : List String)
    (hargs : w.Args = prog :: verb :: cID :: more)
    (hverb : verb = "list" ∨ verb = "ls" ∨ verb = "l")
    (henv : w.LookupEnv "EKSPHEMERAL_HOME" = some eksphome) :
    let res := bshellout w 0 (eksphome ++ "/eksp-list.sh") [cID]
    ((parseCS res.2).2 ≠ none →
        main w = (res.1 ++ [Event.stderr
          "\x1b[91mCan't render cluster details. Cluster could be gone or control plane is down :(\x1b[0m\n"],
          Outcome.returned))
      ∧ ((parseCS res.2).2 = none →
        main w = (res.1 ++
          [Event.stdout (ClusterSpec.String { (parseCS res.2).1 with ID := cID } ++ "\n")],
          Outcome.returned))
      ∧ launches res.1 = [(Mode.capturing, eksphome ++ "/eksp-list.sh", [cID])]
      ∧ (parseCS "").2 ≠ none
      ∧ ((∀ lines e, w.run 0 (eksphome ++ "/eksp-list.sh") [cID] ≠ RunResult.ran lines e) →
          res.2 = "") := by
  intro res
  refine ⟨?_, ?_, launches_bshellout _ _ _ _, by decide, ?_⟩
  · intro hfail
    obtain ⟨e, he⟩ := Option.ne_none_iff_exists'.mp hfail
    have he2 : (parseCS (bshellout w 0 (eksphome ++ "/eksp-list.sh") [cID]).2).2 = some e := he
    rcases hverb with rfl | rfl | rfl <;> simp [main, hargs, henv, he2, res] <;> rfl
  · intro hok
    have hok2 : (parseCS (bshellout w 0 (eksphome ++ "/eksp-list.sh") [cID]).2).2 = none := hok
    rcases hverb with rfl | rfl | rfl <;> simp [main, hargs, henv, hok2, res]
  · intro hrun
    simp only [res, bshellout]
    cases h : w.run 0 (eksphome ++ "/eksp-list.sh") [cID] with
    | ran lines e => exact absurd h (hrun lines e)
    | _ => rfl

set_option maxRecDepth 100000 in
/-- C8 at `eksp list abc123`: a lookup that prints a record with an empty
name shows the sentinel line, and a lookup that prints nothing shows the
fixed diagnostic. -/
theorem main_list_one_witness :
    main goneClusterWorld
        = ([Event.exec Mode.capturing "/opt/eksp/eksp-list.sh" ["abc123"],
            Event.stdout "Cluster does not exist or control plane is down\n"],
           Outcome.returned)
      ∧ main (quietWorld ["eksp", "l", "abc123"])
        = ([Event.exec Mode.capturing "/opt/eksp/eksp-list.sh" ["abc123"],
            Event.stderr
              "\x1b[91mCan't render cluster details. Cluster could be gone or control plane is down :(\x1b[0m\n"],
           Outcome.returned) :=
  ⟨((main_list_one goneClusterWorld "eksp" "list" "abc123" "/opt/eksp" []
      rfl (Or.inl rfl) rfl).2.1 (by decide)).trans (by decide),
   ((main_list_one (quietWorld ["eksp", "l", "abc123"]) "eksp" "l" "abc123" "/opt/eksp" []
      rfl (Or.inr (Or.inr rfl)) rfl).1 (by decide)).trans (by decide)⟩

/-- C9: for a captured text that is the empty JSON array, `listClusters`
writes the informational line `No clusters found` to standard output and
does nothing else: no diagnostic, no table, no lookup. -/
theorem listClusters_empty (w : World) (n : Nat) (eksphome cIDs : String)
    (hjson : parseJSON cIDs = some (JValue.arr [])) :
    listClusters w n eksphome cIDs = [Event.stdout "\x1b[94mNo clusters found\x1b[0m\n"] := by
  have hdec : UnmarshalStrings cIDs [] = ([], none) := by
    simp [UnmarshalStrings, hjson, decodeStrings, decodeElems]
  simp [listClusters, hdec]
  rfl

/-- C9 at the text `[]`. -/
theorem listClusters_empty_witness :
    parseJSON "[]" = some (JValue.arr [])
      ∧ listClusters (quietWorld ["eksp", "list"]) 1 "/opt/eksp" "[]"
        = [Event.stdout "\x1b[94mNo clusters found\x1b[0m\n"] :=
  ⟨rfl, listClusters_empty (quietWorld ["eksp", "list"]) 1 "/opt/eksp" "[]" rfl⟩

/-- A captured text that is malformed, or whose value is neither an array nor
`null`, leaves the identifier list empty: `listClusters` writes the decode
diagnostic, then the line `No clusters found`, and nothing else. -/
theorem listClusters_undecodable (w : World) (n : Nat) (eksphome cIDs : String)
    (h : parseJSON cIDs = none
      ∨ ∃ v, parseJSON cIDs = some v ∧ (∀ elems, v ≠ JValue.arr elems) ∧ v ≠ JValue.null) :
    ∃ e, (UnmarshalStrings cIDs []).2 = some e
      ∧ listClusters w n eksphome cIDs
        = perr "Can't render cluster spec due to:" (some (w.jsonErrorText e))
            ++ pinfo "No clusters found" := by
  rcases h with h | ⟨v, hv, harr, hnull⟩
  · exact ⟨JsonError.malformed, by simp [UnmarshalStrings, h],
      by simp [listClusters, UnmarshalStrings, h]⟩
  · cases v with
    | arr elems => exact absurd rfl (harr elems)
    | null => exact absurd rfl hnull
    | bool b =>
      exact ⟨_, by simp [UnmarshalStrings, hv, decodeStrings]; rfl,
        by simp [listClusters, UnmarshalStrings, hv, decodeStrings]⟩
    | num lit =>
      exact ⟨_, by simp [UnmarshalStrings, hv, decodeStrings]; rfl,
        by simp [listClusters, UnmarshalStrings, hv, decodeStrings]⟩
    | str t =>
      exact ⟨_, by simp [UnmarshalStrings, hv, decodeStrings]; rfl,
        by simp [listClusters, UnmarshalStrings, hv, decodeStrings]⟩
    | obj members =>
      exact ⟨_, by simp [UnmarshalStrings, hv, decodeStrings]; rfl,
        by simp [listClusters, UnmarshalStrings, hv, decodeStrings]⟩

set_option maxRecDepth 100000 in
/-- C10: the captured text `["a",1]` fails to decode as a list of strings (its
second element is a number), yet the decoder leaves the two-element list
`["a", ""]` behind: `listClusters` writes the decode diagnostic, writes
nothing (so no `No clusters found`) to standard output, and goes on to look up the identifiers `a` and the
empty one and to flush a table with the header. -/
theorem listClusters_mixed_array (w : World) (n : Nat) (eksphome : String) :
    UnmarshalStrings "[\"a\",1]" [] = (["a", ""], some (JsonError.typeMismatch "number"))
      ∧ listClusters w n eksphome "[\"a\",1]"
        = perr "Can't render cluster spec due to:"
              (some (w.jsonErrorText (JsonError.typeMismatch "number")))
            ++ (listLoop w eksphome n ["a", ""]).1
            ++ [Event.table (tableHeader :: (listLoop w eksphome n ["a", ""]).2)]
      ∧ launches (listClusters w n eksphome "[\"a\",1]")
        = [(Mode.capturing, eksphome ++ "/eksp-list.sh", ["a"]),
           (Mode.capturing, eksphome ++ "/eksp-list.sh", [""])]
      ∧ tables (listClusters w n eksphome "[\"a\",1]")
        = [tableHeader :: (listLoop w eksphome n ["a", ""]).2]
      ∧ stdouts (listClusters w n eksphome "[\"a\",1]") = [] := by
  have hdec : UnmarshalStrings "[\"a\",1]" []
      = (["a", ""], some (JsonError.typeMismatch "number")) := by decide
  have hlist : listClusters w n eksphome "[\"a\",1]"
      = perr "Can't render cluster spec due to:"
            (some (w.jsonErrorText (JsonError.typeMismatch "number")))
          ++ (listLoop w eksphome n ["a", ""]).1
          ++ [Event.table (tableHeader :: (listLoop w eksphome n ["a", ""]).2)] := by
    simp [listClusters, hdec]
  refine ⟨hdec, hlist, ?_, ?_, ?_⟩
  · rw [hlist, launches_append, launches_append, launches_perr, listLoop_launches]
    simp [launches]
  · rw [hlist, tables_append, tables_append, tables_perr, listLoop_tables]
    simp [tables]
  · rw [hlist, stdouts_append, stdouts_append, stdouts_perr, listLoop_stdouts]
    simp [stdouts]

end Eksp
